import Mathlib

/-!
Shallow embedding of the quesec-bikes storefront scripts:
  * `src/quesec/static/assets/js/fbt_widget.js` — the "frequently bought
    together" (FBT) widget (namespace `Fbt`),
  * the review-panel controller (`src/unnamed/part_000`, namespace `Reviews`),
  * `src/quesec/static/assets/js/zoom.js` — the gallery mounter
    (namespace `Zoom`).

JavaScript numbers are modelled as `ℚ` (the scripts only add, compare and
round price values; no NaN/Infinity arithmetic is exercised by the claims),
DOM elements as explicit record fields, absent elements/attributes as
`Option`, and network effects as explicit request lists returned alongside
the new state.
-/

set_option autoImplicit false

namespace Fbt

/-- One entry of the `payload.items` array returned by the FBT API.
`variant_id` holds the value of `Number(it.variant_id)`; `price` and
`compare_at_price` hold `Number(x || 0)` of the respective JSON fields
(0 when the field is absent or falsy); `isMain` is the truthiness of the
`_isMain` flag. -/
structure FbtItem where
  variant_id : Int
  price : ℚ
  compare_at_price : ℚ
  isMain : Bool
deriving DecidableEq, Repr

/-- `Math.round` as JavaScript computes it: half-values round toward `+∞`. -/
def jsRound (q : ℚ) : Int := Int.floor (q + 1/2)

/-- Group a reversed digit list into chunks of two (used after the initial
group of three), as `toLocaleString("en-IN")` does. -/
def chunk2 : List Char → List (List Char)
  | [] => []
  | [a] => [[a]]
  | a :: b :: rest => [a, b] :: chunk2 rest

/-- `n.toLocaleString("en-IN")` for an integer: digits grouped 3-then-2s
from the least significant end, separated by commas. -/
def enIN (n : Int) : String :=
  let rev := (toString n.natAbs).data.reverse
  let groups := (rev.take 3 :: chunk2 (rev.drop 3)).filter (fun g => g ≠ [])
  let digits := String.mk (List.intercalate [','] groups).reverse
  if n < 0 then "-" ++ digits else digits

/-- `inr` from fbt_widget.js: the rupee sign followed by
`Math.round(Number(n || 0)).toLocaleString("en-IN")`. -/
def inr (n : ℚ) : String := "₹" ++ enIN (jsRound n)

/-- The checkbox state of one rendered FBT row: `vid` is the value of the
`data-vid` attribute (written as `Number(it.variant_id)` by `rowHTML`),
`checked` the checkbox state. -/
structure FbtRow where
  vid : Int
  checked : Bool
deriving DecidableEq, Repr

/-- Rows as first rendered by `rowHTML`/`renderBox`: one per item of `all`,
checkbox checked, `data-vid = Number(it.variant_id)`. -/
def renderRows (all : List FbtItem) : List FbtRow :=
  all.map (fun it => ⟨it.variant_id, true⟩)

/-- The rows after the user has toggled some checkboxes: row i keeps the
vid of item i and carries the i-th entry of the selection vector. -/
def mkRows (all : List FbtItem) (sel : List Bool) : List FbtRow :=
  (all.zip sel).map (fun p => ⟨p.1.variant_id, p.2⟩)

/-- The items whose row is checked (the selection subset). -/
def selectedItems (all : List FbtItem) (sel : List Bool) : List FbtItem :=
  ((all.zip sel).filter (fun p => p.2)).map (fun p => p.1)

/-- `qsa(".fbt-check:checked", root).map(c => Number(c.dataset.vid))`. -/
def recomputeVids (rows : List FbtRow) : List Int :=
  (rows.filter (fun r => r.checked)).map (fun r => r.vid)

/-- `all.filter(r => vids.includes(Number(r.variant_id)))`. -/
def recomputePicked (all : List FbtItem) (rows : List FbtRow) : List FbtItem :=
  all.filter (fun r => (recomputeVids rows).contains r.variant_id)

/-- `picked.reduce((a,b) => a + Number(b.price || 0), 0)`. -/
def sumSale (l : List FbtItem) : ℚ := l.foldl (fun a b => a + b.price) 0

/-- `picked.reduce((a,b) => a + Number(b.compare_at_price || 0), 0)`. -/
def sumComp (l : List FbtItem) : ℚ := l.foldl (fun a b => a + b.compare_at_price) 0

/-- The view state written by `recompute`. -/
structure TotalsView where
  saleText : String
  compText : String
  totalsShown : Bool
  addDisabled : Bool
deriving DecidableEq, Repr

/-- The `recompute` closure of fbt_widget.js (lines 126-135): read the
checked vids, pick the matching items of `all`, write both totals, show
the totals wrap, and disable the add button iff nothing is checked. -/
def recompute (all : List FbtItem) (rows : List FbtRow) : TotalsView :=
  let vids := recomputeVids rows
  let picked := all.filter (fun r => vids.contains r.variant_id)
  let sSale := sumSale picked
  let sComp := sumComp picked
  { saleText := inr sSale
    compText := if sComp > sSale then inr sComp else ""
    totalsShown := true
    addDisabled := vids.length == 0 }

/-- The widget state after the DOMContentLoaded flow has handled a fetched
payload: the display style of the `[data-fbt-root]` element and the
checkbox rows rendered into it. -/
structure FbtOutcome where
  display : String
  rows : List FbtRow
deriving DecidableEq, Repr

/-- Lines 107-108: `linked = all.filter(x => !x._isMain)` and
`hasLinked = linked.length ? true : all.length > 0 && !all.some(x => x._isMain)`. -/
def hasLinked (all : List FbtItem) : Bool :=
  if (all.filter (fun x => !x.isMain)).length ≠ 0 then true
  else decide (all.length > 0) && !(all.any (fun x => x.isMain))

/-- Lines 110-123 given a successfully fetched payload: when `hasLinked`
fails the root is hidden (`display: none`) with nothing rendered; otherwise
the rows for `all` are rendered (both the renderBox path and the
skeleton-fill path produce one checked row per item) and the display is
left at its initial value `d0`. -/
def processPayload (d0 : String) (all : List FbtItem) : FbtOutcome :=
  if !(hasLinked all) then ⟨"none", []⟩
  else ⟨d0, renderRows all⟩

/-- `root.getAttribute("data-cart-batch") || "/cart/batch-add/"` (a missing
or empty attribute falls back to the default endpoint). -/
def getCartBatch (attr : Option String) : String :=
  match attr with
  | none => "/cart/batch-add/"
  | some s => if s = "" then "/cart/batch-add/" else s

/-- One element of the `lines` array of the batch-add body:
`{ variant_id: Number(c.dataset.vid), qty: 1 }`. -/
structure CartLine where
  variant_id : Int
  qty : Nat
deriving DecidableEq, Repr

/-- Lines 143-145: one line per checked checkbox, in DOM order. -/
def mkLines (rows : List FbtRow) : List CartLine :=
  (rows.filter (fun r => r.checked)).map (fun r => ⟨r.vid, 1⟩)

/-- The POST request the click handler issues to the cart-batch endpoint. -/
structure CartRequest where
  url : String
  httpMethod : String
  csrfToken : String
  lines : List CartLine
deriving DecidableEq, Repr

/-- How the `fetch` of the batch-add request resolves. -/
inductive NetOutcome where
  | ok
  | httpError
  | netFail
deriving DecidableEq, Repr

/-- Everything the add-button click handler can do: the requests it issues,
the navigation it performs (`window.location.href = "/cart/"` on success),
and user-visible feedback (the catch block is empty, so always `none`). -/
structure ClickOutcome where
  requests : List CartRequest
  navigatedTo : Option String
  feedback : Option String
deriving DecidableEq, Repr

/-- The `addBtn` click handler (lines 142-161): collect the checked lines,
return early when empty, otherwise POST them with the `X-CSRFToken` header;
navigate to `/cart/` on an ok status, and swallow failures silently. -/
def addBtnClick (cartBatch token : String) (rows : List FbtRow) (net : NetOutcome) :
    ClickOutcome :=
  let lines := mkLines rows
  if lines.length = 0 then ⟨[], none, none⟩
  else
    let req : CartRequest := ⟨cartBatch, "POST", token, lines⟩
    match net with
    | .ok => ⟨[req], some "/cart/", none⟩
    | .httpError => ⟨[req], none, none⟩
    | .netFail => ⟨[req], none, none⟩

/-- A payload with two items sharing `variant_id = 1` (the API does not
enforce uniqueness of variant ids). -/
def dupAll : List FbtItem := [⟨1, 10, 0, false⟩, ⟨1, 20, 0, false⟩]

/-- Only the first of the two rows is checked. -/
def dupSel : List Bool := [true, false]

/-- A payload with distinct variant ids. -/
def wAll : List FbtItem := [⟨1, 10, 25, false⟩, ⟨2, 5, 0, false⟩]

/-- Both rows checked. -/
def wSel : List Bool := [true, true]

/-- A payload whose only item is flagged as the main product. -/
def mainOnly : List FbtItem := [⟨7, 10, 0, true⟩]

/-- A payload with the main product and one linked item. -/
def oneLinked : List FbtItem := [⟨7, 10, 0, true⟩, ⟨8, 5, 0, false⟩]

/-- A rendered row set with two checked rows and one unchecked row. -/
def wRows : List FbtRow := [⟨1, true⟩, ⟨2, false⟩, ⟨3, true⟩]

/-- A rendered row set with every checkbox unchecked. -/
def uncheckedRows : List FbtRow := [⟨1, false⟩, ⟨2, false⟩]

end Fbt

namespace Reviews

/-- JavaScript template-literal interpolation of a possibly-undefined
value: `undefined` prints as the literal string "undefined". -/
def jsStr : Option String → String
  | none => "undefined"
  | some s => s

/-- JavaScript `a || b` for a string-or-undefined `a` (the empty string is
falsy). -/
def jsOr (a : Option String) (b : String) : String :=
  match a with
  | none => b
  | some s => if s = "" then b else s

/-- The display/class/text state of the `#review-form-msg` element.
`hasSuccess`/`hasDanger` model membership of the two classes the script
adds and removes via `classList`. -/
structure MsgState where
  display : String
  hasSuccess : Bool
  hasDanger : Bool
  text : String
deriving DecidableEq, Repr

/-- The interactive pieces the controller looks up inside the reviews
area after each render. Each `Option String` is `some display` when the
element exists (carrying its `style.display`). `sortSel` is the value of
the `#reviews-sort` select, `pagerPresent`/`formPresent` whether the
pagination wrap and the `#review-form` element exist; these three are
`document`-level lookups whose targets live inside the reviews area. -/
structure AreaContent where
  formWrap : Option String
  listWrap : Option String
  btnWrite : Option String
  btnCancel : Option String
  sortSel : Option String
  pagerPresent : Bool
  formPresent : Bool
deriving DecidableEq, Repr

/-- The `#reviews-area` element: its `data-slug` and `data-variant`
attributes (each possibly absent) and its inner content. -/
structure AreaData where
  slug : Option String
  variant : Option String
  content : AreaContent
deriving DecidableEq, Repr

/-- The page state the controller touches: `area` is `none` when
`#reviews-area` is not in the document; `msg` is the `#review-form-msg`
element when present. -/
structure ReviewsDom where
  area : Option AreaData
  msg : Option MsgState
deriving DecidableEq, Repr

/-- `toggleReviewForm(show)` acting on the content of an existing area:
each of the four elements, when present, gets its display set. -/
def toggleContent (showForm : Bool) (c : AreaContent) : AreaContent :=
  if showForm then
    { c with
      formWrap := c.formWrap.map (fun _ => "")
      listWrap := c.listWrap.map (fun _ => "none")
      btnWrite := c.btnWrite.map (fun _ => "none")
      btnCancel := c.btnCancel.map (fun _ => "") }
  else
    { c with
      formWrap := c.formWrap.map (fun _ => "none")
      listWrap := c.listWrap.map (fun _ => "")
      btnWrite := c.btnWrite.map (fun _ => "")
      btnCancel := c.btnCancel.map (fun _ => "none") }

/-- `toggleReviewForm` — returns immediately when the container is
missing. -/
def toggleReviewForm (showForm : Bool) (dom : ReviewsDom) : ReviewsDom :=
  match dom.area with
  | none => dom
  | some a => { dom with area := some { a with content := toggleContent showForm a.content } }

/-- `bindHandlers()`: a no-op when the container is missing; otherwise
attach the listeners for each element that exists (returned as a list of
handler tags, in binding order) and apply the initial
`toggleReviewForm(false)` when both the form wrap and the list wrap
exist. -/
def bindHandlers (dom : ReviewsDom) : ReviewsDom × List String :=
  match dom.area with
  | none => (dom, [])
  | some a =>
    let bound :=
      (if a.content.sortSel.isSome then ["sort-change"] else [])
      ++ (if a.content.pagerPresent then ["paginate-click"] else [])
      ++ (if a.content.formPresent then ["form-submit"] else [])
      ++ (if a.content.btnWrite.isSome then ["write-click"] else [])
      ++ (if a.content.btnCancel.isSome then ["cancel-click"] else [])
    let content :=
      if a.content.formWrap.isSome && a.content.listWrap.isSome then
        toggleContent false a.content
      else a.content
    ({ dom with area := some { a with content := content } }, bound)

/-- A network request issued by the controller. `csrfToken` is the value
sent as the `X-CSRFToken` header, when that header is set. -/
structure FetchReq where
  url : String
  httpMethod : String
  csrfToken : Option String
deriving DecidableEq, Repr

/-- The URL template of `loadReviews`: a null container interpolates as
the literal string "undefined" for both slug and variant. -/
def reviewsUrl (dom : ReviewsDom) (s p : String) : String :=
  "/products/" ++ jsStr (dom.area.bind (fun a => a.slug))
    ++ "/reviews/?variant=" ++ jsStr (dom.area.bind (fun a => a.variant))
    ++ "&sort=" ++ s ++ "&page=" ++ p

/-- What one `loadReviews` (or `setVariant`) call did: the resulting DOM,
the requests it issued, and whether it threw (assigning
`container().innerHTML` with a null container is a TypeError). -/
structure LoadOutcome where
  dom : ReviewsDom
  requests : List FetchReq
  threw : Bool
deriving DecidableEq, Repr

/-- `loadReviews(params)` (lines 19-27): resolve sort (param, else the
select value, else "recent") and page (param, else 1), fetch the
fragment — the fetch is issued even when the container is missing — then
replace the container content with the `response` fragment and re-bind
handlers; with a null container the subsequent `.innerHTML` assignment
throws. -/
def loadReviews (dom : ReviewsDom) (sortParam pageParam : Option String)
    (response : AreaContent) : LoadOutcome :=
  let s := jsOr sortParam (jsOr (dom.area.bind (fun a => a.content.sortSel)) "recent")
  let p := jsOr pageParam "1"
  let req : FetchReq := ⟨reviewsUrl dom s p, "GET", none⟩
  match dom.area with
  | none => ⟨dom, [req], true⟩
  | some a =>
    let dom1 : ReviewsDom := { dom with area := some { a with content := response } }
    ⟨(bindHandlers dom1).1, [req], false⟩

/-- How the server answered the review POST: `ok` is `res.ok`;
`parsedError` is `none` when the body is not parseable JSON (so
`res.json()` rejects and the `catch` supplies `{error: "Error"}`), and
`some e` when it parsed with `e` the optional `error` field. -/
structure SubmitResponse where
  ok : Bool
  parsedError : Option (Option String)
deriving DecidableEq, Repr

/-- The `data` object after `await res.json().catch(() => ({error: "Error"}))`,
reduced to its `error` field. -/
def fallbackData (parsedError : Option (Option String)) : Option String :=
  match parsedError with
  | none => some "Error"
  | some e => e

/-- `data.error || "Something went wrong."`. -/
def errText (parsedError : Option (Option String)) : String :=
  jsOr (fallbackData parsedError) "Something went wrong."

/-- The success branch of `submitReview` on the message element. -/
def setMsgSuccess (m : MsgState) : MsgState :=
  { m with
    display := "block"
    hasSuccess := true
    hasDanger := false
    text := "Thanks! Your review has been submitted." }

/-- The failure branch of `submitReview` on the message element. -/
def setMsgError (t : String) (m : MsgState) : MsgState :=
  { m with
    display := "block"
    hasSuccess := false
    hasDanger := true
    text := t }

/-- What one `submitReview` call did. -/
structure SubmitOutcome where
  dom : ReviewsDom
  requests : List FetchReq
  threw : Bool
deriving DecidableEq, Repr

/-- `submitReview(e)` (lines 29-57): POST the form with the `X-CSRFToken`
header (an undefined cookie token stringifies to "undefined"); on an ok
status show the success message, await `loadReviews({sort: "recent",
page: 1})` — whose `response` fragment becomes the new area content — and
collapse the form; on a failure status parse the body with the
`{error: "Error"}` fallback and show the error message. A throw inside
the awaited `loadReviews` propagates before the form is collapsed. -/
def submitReview (dom : ReviewsDom) (formAction : String) (csrftoken : Option String)
    (resp : SubmitResponse) (response : AreaContent) : SubmitOutcome :=
  let post : FetchReq := ⟨formAction, "POST", some (jsStr csrftoken)⟩
  if resp.ok then
    let dom1 : ReviewsDom := { dom with msg := dom.msg.map setMsgSuccess }
    let lr := loadReviews dom1 (some "recent") (some "1") response
    if lr.threw then ⟨lr.dom, post :: lr.requests, true⟩
    else ⟨toggleReviewForm false lr.dom, post :: lr.requests, false⟩
  else
    ⟨{ dom with msg := dom.msg.map (setMsgError (errText resp.parsedError)) }, [post], false⟩

/-- `QSReviews.setVariant(newVariantId)` (lines 136-143): a no-op when the
container is missing; otherwise update `data-variant` and reload the
first page of recent reviews. -/
def setVariant (dom : ReviewsDom) (newVariantId : String) (response : AreaContent) :
    LoadOutcome :=
  match dom.area with
  | none => ⟨dom, [], false⟩
  | some a =>
    let dom1 : ReviewsDom := { dom with area := some { a with variant := some newVariantId } }
    loadReviews dom1 (some "recent") (some "1") response

/-- An area content with no interactive elements at all. -/
def emptyContent : AreaContent := ⟨none, none, none, none, none, false, false⟩

/-- The DOM of a page without a `#reviews-area` element. -/
def domNoContainer : ReviewsDom := ⟨none, none⟩

/-- A reviews area for a concrete product and variant. -/
def wArea : AreaData := ⟨some "bike-x", some "42", emptyContent⟩

/-- A message element in its initial hidden state. -/
def wMsg : MsgState := ⟨"none", false, false, ""⟩

/-- A response fragment containing a form wrap and a list wrap. -/
def wContent : AreaContent := ⟨some "", some "", none, none, none, false, false⟩

/-- A response with a success status. -/
def wRespOk : SubmitResponse := ⟨true, none⟩

/-- A failure response whose body is not parseable JSON. -/
def wRespBad : SubmitResponse := ⟨false, none⟩

end Reviews

namespace Zoom

/-- Which calls into the third-party Swiper library throw (the behaviour
of the library is outside the script; the claims quantify over it). -/
structure SwiperLib where
  ctorThrows : Bool
  updateThrows : Bool
  slideToThrows : Bool
  destroyThrows : Bool
deriving DecidableEq, Repr

/-- Presence of the gallery selector groups in the document: the primary
pair `.tf-product-media-main`/`.thumbs-slider` and the four numbered
pairs, plus the number of `.color-btn` elements. -/
structure ZoomDom where
  primaryPresent : Bool
  numbered1 : Bool
  numbered2 : Bool
  numbered3 : Bool
  numbered4 : Bool
  colorBtnCount : Nat
deriving DecidableEq, Repr

/-- The module state of zoom.js plus the instrumentation the claims need:
`mounted` is the `_mounted` registry of `(main, thumbs)` instance ids;
`live` the constructed-and-not-destroyed Swiper instance ids;
`colorClickListeners` the total number of click listeners attached to
`.color-btn` elements (the script adds them and never removes them);
`loadListeners` the window `load` listeners registered; `nextId` a fresh
instance counter. -/
structure ZoomState where
  mounted : List (Nat × Nat)
  live : Finset Nat
  colorClickListeners : Nat
  loadListeners : Nat
  nextId : Nat
deriving DecidableEq

/-- The module state before the first mount. -/
def freshState : ZoomState := ⟨[], ∅, 0, 0, 0⟩

/-- One call into the library that either returns or throws. -/
def libCall (throws : Bool) : Except Unit Unit :=
  if throws then Except.error () else Except.ok ()

/-- The body of `resetToFirst`: `main.update()`, `thumbs.update()`,
`main.slideTo(0,0,false)`, `thumbs.slideTo(0,0,false)`. -/
def resetToFirstBody (lib : SwiperLib) : Except Unit Unit := do
  libCall lib.updateThrows
  libCall lib.updateThrows
  libCall lib.slideToThrows
  libCall lib.slideToThrows

/-- `resetToFirst` (lines 7-15): the body runs inside
`try { } catch (e) {}`, so no exception escapes. -/
def resetToFirst (lib : SwiperLib) : Unit :=
  match resetToFirstBody lib with
  | Except.ok _ => ()
  | Except.error _ => ()

/-- One `pair.x.destroy(true, true)` call: removes the instance from the
live set, or throws leaving the state as it was. `(state, threw)`. -/
def destroyCall (lib : SwiperLib) (st : ZoomState) (id : Nat) : ZoomState × Bool :=
  if lib.destroyThrows then (st, true)
  else ({ st with live := st.live.erase id }, false)

/-- Destroy one registry pair inside `try { } catch (e) {}` (lines 19-24):
main first, then thumbs; a throw skips the rest of the block but is
swallowed. -/
def destroyPair (lib : SwiperLib) (st : ZoomState) (pr : Nat × Nat) : ZoomState :=
  let s1 := destroyCall lib st pr.1
  if s1.2 then s1.1
  else (destroyCall lib s1.1 pr.2).1

/-- `destroyMounted()` (lines 18-26): destroy every registered pair, then
empty the `_mounted` registry. -/
def destroyMounted (lib : SwiperLib) (st : ZoomState) : ZoomState :=
  let st1 := st.mounted.foldl (destroyPair lib) st
  { st1 with mounted := [] }

/-- `new Swiper(...)`: allocate a fresh live instance id, or throw. The
two constructor calls of `initOneGallery` are NOT wrapped in try/catch. -/
def swiperNew (lib : SwiperLib) (st : ZoomState) : Except Unit (ZoomState × Nat) :=
  if lib.ctorThrows then Except.error ()
  else Except.ok ({ st with nextId := st.nextId + 1, live := insert st.nextId st.live },
    st.nextId)

/-- `initOneGallery(mainSel, thumbsSel, colorSync)` (lines 29-99):
`selPresent` is whether both selectors match an element. Constructs the
thumbs Swiper then the main Swiper (a constructor exception propagates),
calls `resetToFirst` immediately (swallowed exceptions), registers a
window `load` listener and a `setTimeout`, and with `colorSync` attaches
one click listener to every `.color-btn` element (plus a `slideChange`
handler that lives and dies with the main instance, not tracked).
Returns the new state and the `{main, thumbs}` id pair (`none` when the
selectors are missing). -/
def initOneGallery (lib : SwiperLib) (dom : ZoomDom) (selPresent colorSync : Bool)
    (st : ZoomState) : Except Unit (ZoomState × Option (Nat × Nat)) :=
  if !selPresent then Except.ok (st, none)
  else
    match swiperNew lib st with
    | Except.error e => Except.error e
    | Except.ok (st1, thumbsId) =>
      match swiperNew lib st1 with
      | Except.error e => Except.error e
      | Except.ok (st2, mainId) =>
        let _ := resetToFirst lib
        let st3 := { st2 with loadListeners := st2.loadListeners + 1 }
        let st4 :=
          if colorSync then
            { st3 with colorClickListeners := st3.colorClickListeners + dom.colorBtnCount }
          else st3
        Except.ok (st4, some (mainId, thumbsId))

/-- The five selector groups probed by `mountAllGalleries` (lines 105-122),
as `(present, colorSync)` pairs: the primary gallery with colour
synchronisation, then the four numbered galleries without it. -/
def galleryGroups (dom : ZoomDom) : List (Bool × Bool) :=
  [(dom.primaryPresent, true), (dom.numbered1, false), (dom.numbered2, false),
   (dom.numbered3, false), (dom.numbered4, false)]

/-- The body of `mountAllGalleries` after `destroyMounted()`: for each
group whose selectors are present, `initOneGallery` and push the pair
onto `_mounted` when its main instance exists. -/
def mountGroups (lib : SwiperLib) (dom : ZoomDom) :
    List (Bool × Bool) → ZoomState → Except Unit ZoomState
  | [], st => Except.ok st
  | g :: rest, st =>
    if g.1 then
      match initOneGallery lib dom true g.2 st with
      | Except.error e => Except.error e
      | Except.ok (st1, pr) =>
        let st2 :=
          match pr with
          | some pair => { st1 with mounted := st1.mounted ++ [pair] }
          | none => st1
        mountGroups lib dom rest st2
    else mountGroups lib dom rest st

/-- `mountAllGalleries()` (lines 101-123): full teardown, then mount every
present selector group. -/
def mountAllGalleries (lib : SwiperLib) (dom : ZoomDom) (st : ZoomState) :
    Except Unit ZoomState :=
  mountGroups lib dom (galleryGroups dom) (destroyMounted lib st)

/-- The number of selector groups present in the document. -/
def groupCount (dom : ZoomDom) : Nat :=
  (galleryGroups dom).countP (fun g => g.1)

/-- Two successive mounts from a fresh module state (page load followed by
one `variant:images:updated` dispatch). -/
def mountTwice (lib : SwiperLib) (dom : ZoomDom) : Except Unit ZoomState :=
  match mountAllGalleries lib dom freshState with
  | Except.error e => Except.error e
  | Except.ok st1 => mountAllGalleries lib dom st1

/-- A library none of whose calls throw. -/
def goodLib : SwiperLib := ⟨false, false, false, false⟩

/-- A library whose constructor throws. -/
def ctorThrowLib : SwiperLib := ⟨true, false, false, false⟩

/-- A library in which everything except the constructor throws. -/
def flakyLib : SwiperLib := ⟨false, true, true, true⟩

/-- A document with the primary gallery and a single colour swatch. -/
def primaryDom : ZoomDom := ⟨true, false, false, false, false, 1⟩

/-- The module state after the first mount of `primaryDom` with `goodLib`
(instances 0 and 1 constructed, one pair registered, one colour-button
click listener attached). -/
def zSt1 : ZoomState := ⟨[(1, 0)], {1, 0}, 1, 1, 2⟩

/-- The module state after the second mount: instances 0 and 1 destroyed,
instances 2 and 3 live, but now two click listeners on the single colour
button. -/
def zSt2 : ZoomState := ⟨[(3, 2)], {3, 2}, 2, 2, 4⟩

end Zoom

/-!
## Theorems

Helper lemmas first, then one theorem per claim (with its witness, and a
counterexample where the claim as stated fails on the code).
-/

namespace Fbt

-- Every vid carried by a rendered row is the variant id of some item.
lemma recomputeVids_sub (all : List FbtItem) (sel : List Bool) :
    ∀ v ∈ recomputeVids (mkRows all sel), v ∈ all.map (fun it => it.variant_id) := by
  intro v hv
  simp only [recomputeVids, mkRows, List.mem_map, List.mem_filter] at hv
  obtain ⟨r, ⟨hr, _⟩, rfl⟩ := hv
  obtain ⟨p, hp, rfl⟩ := hr
  exact List.mem_map.mpr ⟨p.1, (List.of_mem_zip hp).1, rfl⟩

-- When variant ids are pairwise distinct, the items picked back out of
-- `all` by the checked vids are exactly the items of the checked rows.
lemma picked_eq_selected (all : List FbtItem) (sel : List Bool)
    (hnd : (all.map (fun it => it.variant_id)).Nodup) :
    recomputePicked all (mkRows all sel) = selectedItems all sel := by
  induction all generalizing sel with
  | nil => simp [recomputePicked, selectedItems]
  | cons it its ih =>
    rw [List.map_cons, List.nodup_cons] at hnd
    obtain ⟨hnotin, hnd2⟩ := hnd
    cases sel with
    | nil =>
      simp [recomputePicked, recomputeVids, mkRows, selectedItems]
    | cons b bs =>
      have hrows : mkRows (it :: its) (b :: bs) = ⟨it.variant_id, b⟩ :: mkRows its bs := by
        simp [mkRows]
      have hsub := recomputeVids_sub its bs
      cases b with
      | true =>
        have hvids : recomputeVids (mkRows (it :: its) (true :: bs))
            = it.variant_id :: recomputeVids (mkRows its bs) := by
          rw [hrows]
          simp [recomputeVids]
        rw [recomputePicked, hvids, List.filter_cons]
        have hself : (it.variant_id :: recomputeVids (mkRows its bs)).contains it.variant_id
            = true := by
          rw [List.elem_iff]
          exact List.mem_cons_self _ _
        rw [if_pos hself]
        have hcongr : its.filter
              (fun r => (it.variant_id :: recomputeVids (mkRows its bs)).contains r.variant_id)
            = its.filter (fun r => (recomputeVids (mkRows its bs)).contains r.variant_id) := by
          apply List.filter_congr
          intro x hx
          have hne : x.variant_id ≠ it.variant_id := by
            intro he
            exact hnotin (he ▸ List.mem_map.mpr ⟨x, hx, rfl⟩)
          have hbeq : (x.variant_id == it.variant_id) = false := by
            simp only [beq_eq_false_iff_ne, ne_eq]
            exact hne
          simp only [List.contains, List.elem_cons, hbeq]
        rw [hcongr]
        have hih : its.filter (fun r => (recomputeVids (mkRows its bs)).contains r.variant_id)
            = selectedItems its bs := ih bs hnd2
        rw [hih]
        simp [selectedItems, mkRows]
      | false =>
        have hvids : recomputeVids (mkRows (it :: its) (false :: bs))
            = recomputeVids (mkRows its bs) := by
          rw [hrows]
          simp [recomputeVids]
        rw [recomputePicked, hvids, List.filter_cons]
        have hnotc : ((recomputeVids (mkRows its bs)).contains it.variant_id) = false := by
          rw [Bool.eq_false_iff]
          intro hc
          exact hnotin (hsub _ (List.elem_iff.mp hc))
        rw [if_neg (fun hc => Bool.false_ne_true (hnotc ▸ hc))]
        have hih : its.filter (fun r => (recomputeVids (mkRows its bs)).contains r.variant_id)
            = selectedItems its bs := ih bs hnd2
        rw [hih]
        simp [selectedItems, mkRows]

-- The INR formatter never produces the empty string (it starts with the
-- rupee sign), so the compare element is visibly non-empty when written.
lemma inr_ne_empty (q : ℚ) : inr q ≠ "" := by
  rw [inr]
  intro h
  have h2 := congrArg String.data h
  simp [String.data_append] at h2

-- `recompute` written out in terms of its pieces.
lemma recompute_eq (all : List FbtItem) (rows : List FbtRow) :
    recompute all rows =
      { saleText := inr (sumSale (recomputePicked all rows))
        compText := if sumComp (recomputePicked all rows) > sumSale (recomputePicked all rows)
          then inr (sumComp (recomputePicked all rows)) else ""
        totalsShown := true
        addDisabled := (recomputeVids rows).length == 0 } := rfl

lemma floor_half : Int.floor ((1 : ℚ)/2) = 0 := by
  rw [Int.floor_eq_zero_iff]
  constructor <;> norm_num

-- `Math.round` of an integral value is that integer.
lemma jsRound_intCast (n : ℤ) : jsRound ((n : ℚ)) = n := by
  rw [jsRound, Int.floor_int_add, floor_half, add_zero]

lemma inr_intCast (n : ℤ) : inr ((n : ℚ)) = "₹" ++ enIN n := by
  rw [inr, jsRound_intCast]

/-- Claim C1 (corrected; amendment: the items of the payload carry
pairwise distinct variant ids). For every such payload and every subset of
checked rows, the displayed sale total is the INR-formatted sum of the
prices over exactly the selected items, and the compare element is
non-empty exactly when the summed compare price strictly exceeds the
summed sale price. -/
theorem fbt_totals_amended (all : List FbtItem) (sel : List Bool)
    (hnd : (all.map (fun it => it.variant_id)).Nodup) :
    (recompute all (mkRows all sel)).saleText = inr (sumSale (selectedItems all sel))
    ∧ ((recompute all (mkRows all sel)).compText ≠ ""
        ↔ sumComp (selectedItems all sel) > sumSale (selectedItems all sel)) := by
  have hp := picked_eq_selected all sel hnd
  rw [recompute_eq]
  constructor
  · simp only [hp]
  · simp only [hp]
    constructor
    · intro h
      by_contra hlt
      rw [if_neg hlt] at h
      exact h rfl
    · intro h
      rw [if_pos h]
      exact inr_ne_empty _

/-- Claim C1, counterexample to the claim as stated: with two payload
items sharing variant id 1 and only the first row checked, `recompute`
picks both items back out of `all` and displays the sum 30 instead of the
sum 10 over the checked subset. -/
theorem fbt_totals_cex :
    ¬ ((recompute dupAll (mkRows dupAll dupSel)).saleText
        = inr (sumSale (selectedItems dupAll dupSel))) := by
  have hpick : recomputePicked dupAll (mkRows dupAll dupSel) = dupAll := by decide
  have hsel : selectedItems dupAll dupSel = [⟨1, 10, 0, false⟩] := by decide
  have hs30 : sumSale dupAll = ((30 : ℤ) : ℚ) := by
    norm_num [sumSale, dupAll]
  have hs10 : sumSale [(⟨1, 10, 0, false⟩ : FbtItem)] = ((10 : ℤ) : ℚ) := by
    norm_num [sumSale]
  rw [recompute_eq]
  simp only [hpick, hsel, hs30, hs10, inr_intCast]
  decide

/-- Witness for C1 at a concrete two-item payload with distinct ids. -/
theorem fbt_totals_witness :
    ((wAll.map (fun it => it.variant_id)).Nodup)
    ∧ ((recompute wAll (mkRows wAll wSel)).saleText = inr (sumSale (selectedItems wAll wSel))
        ∧ ((recompute wAll (mkRows wAll wSel)).compText ≠ ""
            ↔ sumComp (selectedItems wAll wSel) > sumSale (selectedItems wAll wSel))) :=
  ⟨by decide, fbt_totals_amended wAll wSel (by decide)⟩

-- The dead fallback branch of `hasLinked` collapses: the flag is exactly
-- "some item is not flagged as main".
lemma hasLinked_eq_any (all : List FbtItem) :
    hasLinked all = all.any (fun x => !x.isMain) := by
  unfold hasLinked
  by_cases h : all.filter (fun x => !x.isMain) = []
  · rw [if_neg (by simp [h])]
    rw [List.filter_eq_nil_iff] at h
    cases all with
    | nil => simp
    | cons a l =>
      have ha : a.isMain = true := by simpa using h a (List.mem_cons_self a l)
      have hany : (a :: l).any (fun x => x.isMain) = true :=
        List.any_eq_true.mpr ⟨a, List.mem_cons_self a l, ha⟩
      have hnone : (a :: l).any (fun x => !x.isMain) = false := by
        rw [Bool.eq_false_iff]
        intro hc
        obtain ⟨x, hx, hxm⟩ := List.any_eq_true.mp hc
        exact absurd (h x hx) (by simp [hxm])
      rw [hany, hnone]
      simp
  · rw [if_pos (by simp [List.length_eq_zero, h])]
    obtain ⟨x, hx⟩ := List.exists_mem_of_ne_nil _ h
    have hm := List.mem_filter.mp hx
    exact (List.any_eq_true.mpr ⟨x, hm.1, hm.2⟩).symm

/-- Claim C2 (confirmed). An empty items list, or one in which every item
carries a truthy main flag, ends with the root hidden and nothing
rendered; a list with at least one non-main item leaves the display
untouched and renders a non-empty row set. -/
theorem fbt_hide (d0 : String) (all : List FbtItem) :
    ((all = [] ∨ ∀ x ∈ all, x.isMain = true) → processPayload d0 all = ⟨"none", []⟩)
    ∧ ((∃ x ∈ all, x.isMain = false) →
        (processPayload d0 all).display = d0
        ∧ (processPayload d0 all).rows = renderRows all
        ∧ (processPayload d0 all).rows ≠ []) := by
  constructor
  · intro h
    have hfalse : hasLinked all = false := by
      rw [hasLinked_eq_any, Bool.eq_false_iff]
      intro hc
      obtain ⟨x, hx, hxm⟩ := List.any_eq_true.mp hc
      cases h with
      | inl he =>
        rw [he] at hx
        exact absurd hx (List.not_mem_nil x)
      | inr hall =>
        rw [hall x hx] at hxm
        exact absurd hxm (by decide)
    rw [processPayload, hfalse]
    rfl
  · intro h
    obtain ⟨x, hx, hxm⟩ := h
    have htrue : hasLinked all = true := by
      rw [hasLinked_eq_any]
      exact List.any_eq_true.mpr ⟨x, hx, by simp [hxm]⟩
    have hproc : processPayload d0 all = ⟨d0, renderRows all⟩ := by
      rw [processPayload, htrue]
      rfl
    rw [hproc]
    refine ⟨rfl, rfl, ?_⟩
    intro he
    rw [renderRows, List.map_eq_nil_iff] at he
    rw [he] at hx
    exact absurd hx (List.not_mem_nil x)

/-- Witness for C2: a payload of one main item hides the widget; a payload
with a linked item keeps it visible with rows. -/
theorem fbt_hide_witness :
    (processPayload "" mainOnly = ⟨"none", []⟩)
    ∧ ((processPayload "" oneLinked).display = ""
        ∧ (processPayload "" oneLinked).rows = renderRows oneLinked
        ∧ (processPayload "" oneLinked).rows ≠ []) :=
  ⟨(fbt_hide "" mainOnly).1 (Or.inr (by decide)),
   (fbt_hide "" oneLinked).2 ⟨⟨8, 5, 0, false⟩, by decide, rfl⟩⟩

end Fbt

namespace Fbt

/-- Claim C8 (confirmed). With at least one checked row, the click handler
issues exactly one POST carrying the lines body and the CSRF token to the
configured endpoint (default `/cart/batch-add/`); it navigates to `/cart/`
exactly on an ok status, and produces no feedback in any case. -/
theorem fbt_batch_add (attr : Option String) (token : String) (rows : List FbtRow)
    (net : NetOutcome) (h : mkLines rows ≠ []) :
    (addBtnClick (getCartBatch attr) token rows net).requests
        = [⟨getCartBatch attr, "POST", token, mkLines rows⟩]
    ∧ ((addBtnClick (getCartBatch attr) token rows net).navigatedTo = some "/cart/"
        ↔ net = NetOutcome.ok)
    ∧ (addBtnClick (getCartBatch attr) token rows net).feedback = none
    ∧ getCartBatch none = "/cart/batch-add/" := by
  have hlen : ¬ (mkLines rows).length = 0 := by
    rw [List.length_eq_zero]
    exact h
  unfold addBtnClick
  rw [if_neg hlen]
  cases net <;> simp [getCartBatch]

/-- Witness for C8: two checked rows, default endpoint, ok status. -/
theorem fbt_batch_add_witness :
    mkLines wRows ≠ []
    ∧ ((addBtnClick (getCartBatch none) "tok" wRows NetOutcome.ok).requests
          = [⟨getCartBatch none, "POST", "tok", mkLines wRows⟩]
        ∧ ((addBtnClick (getCartBatch none) "tok" wRows NetOutcome.ok).navigatedTo
              = some "/cart/" ↔ NetOutcome.ok = NetOutcome.ok)
        ∧ (addBtnClick (getCartBatch none) "tok" wRows NetOutcome.ok).feedback = none
        ∧ getCartBatch none = "/cart/batch-add/") :=
  ⟨by decide, fbt_batch_add none "tok" wRows NetOutcome.ok (by decide)⟩

/-- Claim C9 (confirmed). After any `recompute` the add button is disabled
exactly when no checkbox is checked, and a click with nothing checked does
nothing at all (no request, no navigation, no feedback). -/
theorem fbt_disabled_iff (all : List FbtItem) (rows : List FbtRow) :
    ((recompute all rows).addDisabled = true ↔ rows.filter (fun r => r.checked) = [])
    ∧ (rows.filter (fun r => r.checked) = [] →
        ∀ (cb token : String) (net : NetOutcome),
          addBtnClick cb token rows net = ⟨[], none, none⟩) := by
  constructor
  · rw [recompute_eq]
    simp only [recomputeVids, beq_iff_eq, List.length_map, List.length_eq_zero]
  · intro hempty cb token net
    unfold addBtnClick
    rw [if_pos (by simp [mkLines, hempty])]

/-- Witness for C9 at a row set with every checkbox unchecked. -/
theorem fbt_disabled_iff_witness :
    uncheckedRows.filter (fun r => r.checked) = []
    ∧ addBtnClick "/cart/batch-add/" "tok" uncheckedRows NetOutcome.ok = ⟨[], none, none⟩ :=
  ⟨by decide,
   (fbt_disabled_iff [] uncheckedRows).2 (by decide) "/cart/batch-add/" "tok" NetOutcome.ok⟩

/-- Claim C10 (confirmed). Every line has quantity 1, the variant ids of
the lines are exactly the vids of the checked rows in DOM order (so
unchecked rows contribute nothing), and the line count is the checked
count. -/
theorem fbt_line_shape (rows : List FbtRow) :
    (∀ l ∈ mkLines rows, l.qty = 1)
    ∧ (mkLines rows).map (fun l => l.variant_id)
        = (rows.filter (fun r => r.checked)).map (fun r => r.vid)
    ∧ (mkLines rows).length = (rows.filter (fun r => r.checked)).length := by
  refine ⟨?_, ?_, ?_⟩
  · intro l hl
    obtain ⟨r, _, rfl⟩ := List.mem_map.mp hl
    rfl
  · rw [mkLines, List.map_map]
    rfl
  · rw [mkLines, List.length_map]

/-- Witness for C10: the line of the first checked row of `wRows`. -/
theorem fbt_line_shape_witness :
    (⟨1, 1⟩ : CartLine) ∈ mkLines wRows ∧ ((⟨1, 1⟩ : CartLine)).qty = 1 :=
  ⟨by decide, (fbt_line_shape wRows).1 ⟨1, 1⟩ (by decide)⟩

end Fbt

namespace Reviews

/-- Claim C3, counterexample to the claim as stated: with no
`#reviews-area` in the document, `loadReviews` is not a silent no-op — it
still issues a network request (to a URL built from undefined slug and
variant) and then throws a TypeError on the `innerHTML` assignment. -/
theorem reviews_missing_cex :
    (loadReviews domNoContainer none none emptyContent).requests ≠ []
    ∧ (loadReviews domNoContainer none none emptyContent).threw = true :=
  ⟨by decide, rfl⟩

/-- Claim C3 (corrected; amendment: with the container absent, handler
binding, `toggleReviewForm` and `setVariant` are silent no-ops, but
`loadReviews` still issues its GET — with the literal string "undefined"
interpolated for slug and variant — and then throws, and `submitReview`
still issues its POST). -/
theorem reviews_missing_amended (dom : ReviewsDom) (harea : dom.area = none)
    (sp pp : Option String) (rc : AreaContent) (b : Bool) (v action : String)
    (tok : Option String) (resp : SubmitResponse) :
    bindHandlers dom = (dom, [])
    ∧ toggleReviewForm b dom = dom
    ∧ setVariant dom v rc = ⟨dom, [], false⟩
    ∧ (loadReviews dom sp pp rc).requests
        = [⟨"/products/undefined/reviews/?variant=undefined&sort="
            ++ jsOr sp "recent" ++ "&page=" ++ jsOr pp "1", "GET", none⟩]
    ∧ (loadReviews dom sp pp rc).threw = true
    ∧ (submitReview dom action tok resp rc).requests.head?
        = some ⟨action, "POST", some (jsStr tok)⟩ := by
  obtain ⟨area, msg⟩ := dom
  simp only at harea
  subst harea
  refine ⟨rfl, rfl, rfl, ?_, rfl, ?_⟩
  · simp [loadReviews, reviewsUrl, jsStr, jsOr]
  · by_cases hok : resp.ok = true
    · simp [submitReview, hok, loadReviews]
    · simp only [Bool.not_eq_true] at hok
      simp [submitReview, hok]

/-- Witness for C3 (amended) at the concrete empty document. -/
theorem reviews_missing_witness :
    (domNoContainer.area = none)
    ∧ (bindHandlers domNoContainer = (domNoContainer, [])
      ∧ toggleReviewForm true domNoContainer = domNoContainer
      ∧ setVariant domNoContainer "9" emptyContent = ⟨domNoContainer, [], false⟩
      ∧ (loadReviews domNoContainer none none emptyContent).requests
          = [⟨"/products/undefined/reviews/?variant=undefined&sort="
              ++ jsOr none "recent" ++ "&page=" ++ jsOr none "1", "GET", none⟩]
      ∧ (loadReviews domNoContainer none none emptyContent).threw = true
      ∧ (submitReview domNoContainer "/r/" none wRespBad emptyContent).requests.head?
          = some ⟨"/r/", "POST", some (jsStr none)⟩) :=
  ⟨rfl, reviews_missing_amended domNoContainer rfl none none emptyContent true "9" "/r/"
    none wRespBad⟩

/-- Claim C5 (confirmed). On a success status, `submitReview` sets the
message element to the success text (shown, success class), issues the
POST followed by exactly one reload GET with sort `recent` and page `1`,
throws nothing, and leaves the (re-rendered) form wrap collapsed. -/
theorem reviews_submit_success (a : AreaData) (m : MsgState) (action : String)
    (tok : Option String) (resp : SubmitResponse) (rc : AreaContent)
    (hok : resp.ok = true) (hform : rc.formWrap.isSome) :
    (submitReview ⟨some a, some m⟩ action tok resp rc).requests
        = [⟨action, "POST", some (jsStr tok)⟩,
           ⟨reviewsUrl ⟨some a, some m⟩ "recent" "1", "GET", none⟩]
    ∧ (submitReview ⟨some a, some m⟩ action tok resp rc).dom.msg
        = some ⟨"block", true, false, "Thanks! Your review has been submitted."⟩
    ∧ (submitReview ⟨some a, some m⟩ action tok resp rc).threw = false
    ∧ (submitReview ⟨some a, some m⟩ action tok resp rc).dom.area.map
        (fun a2 => a2.content.formWrap) = some (some "none") := by
  obtain ⟨fw, hfw⟩ := Option.isSome_iff_exists.mp hform
  by_cases hl : rc.listWrap.isSome
  · simp [submitReview, hok, loadReviews, bindHandlers, toggleReviewForm, toggleContent,
      reviewsUrl, jsOr, jsStr, setMsgSuccess, hfw, hl]
  · simp [submitReview, hok, loadReviews, bindHandlers, toggleReviewForm, toggleContent,
      reviewsUrl, jsOr, jsStr, setMsgSuccess, hfw, hl]

/-- Witness for C5 at a concrete area, message element and response. -/
theorem reviews_submit_success_witness :
    wRespOk.ok = true ∧ wContent.formWrap.isSome = true
    ∧ ((submitReview ⟨some wArea, some wMsg⟩ "/r/" (some "tok") wRespOk wContent).requests
        = [⟨"/r/", "POST", some (jsStr (some "tok"))⟩,
           ⟨reviewsUrl ⟨some wArea, some wMsg⟩ "recent" "1", "GET", none⟩]
      ∧ (submitReview ⟨some wArea, some wMsg⟩ "/r/" (some "tok") wRespOk wContent).dom.msg
          = some ⟨"block", true, false, "Thanks! Your review has been submitted."⟩
      ∧ (submitReview ⟨some wArea, some wMsg⟩ "/r/" (some "tok") wRespOk wContent).threw = false
      ∧ (submitReview ⟨some wArea, some wMsg⟩ "/r/" (some "tok") wRespOk wContent).dom.area.map
          (fun a2 => a2.content.formWrap) = some (some "none")) :=
  ⟨rfl, rfl, reviews_submit_success wArea wMsg "/r/" (some "tok") wRespOk wContent rfl rfl⟩

/-- Claim C6 (confirmed). On a failure status with an unparseable body the
message element shows the generic fallback text — the string "Error"
supplied by the parse-failure catch — with the danger class, and only the
POST was issued. -/
theorem reviews_submit_parse_fail (dom : ReviewsDom) (m : MsgState) (action : String)
    (tok : Option String) (resp : SubmitResponse) (rc : AreaContent)
    (hm : dom.msg = some m) (hok : resp.ok = false) (hpe : resp.parsedError = none) :
    (submitReview dom action tok resp rc).dom.msg
        = some ⟨"block", false, true, "Error"⟩
    ∧ (submitReview dom action tok resp rc).requests
        = [⟨action, "POST", some (jsStr tok)⟩]
    ∧ (submitReview dom action tok resp rc).threw = false := by
  simp [submitReview, hok, hm, errText, fallbackData, hpe, setMsgError, jsOr]

/-- Witness for C6 at a concrete failure response. -/
theorem reviews_submit_parse_fail_witness :
    (⟨some wArea, some wMsg⟩ : ReviewsDom).msg = some wMsg
    ∧ wRespBad.ok = false ∧ wRespBad.parsedError = none
    ∧ ((submitReview ⟨some wArea, some wMsg⟩ "/r/" none wRespBad wContent).dom.msg
        = some ⟨"block", false, true, "Error"⟩
      ∧ (submitReview ⟨some wArea, some wMsg⟩ "/r/" none wRespBad wContent).requests
          = [⟨"/r/", "POST", some (jsStr none)⟩]
      ∧ (submitReview ⟨some wArea, some wMsg⟩ "/r/" none wRespBad wContent).threw = false) :=
  ⟨rfl, rfl, rfl,
   reviews_submit_parse_fail ⟨some wArea, some wMsg⟩ wMsg "/r/" none wRespBad wContent
     rfl rfl rfl⟩

end Reviews

namespace Zoom

-- A non-throwing constructor call, written out.
lemma swiperNew_ok (lib : SwiperLib) (st : ZoomState) (hc : lib.ctorThrows = false) :
    swiperNew lib st
      = Except.ok ({ st with nextId := st.nextId + 1, live := insert st.nextId st.live },
          st.nextId) := by
  simp [swiperNew, hc]

-- One whole gallery initialisation under a non-throwing constructor.
lemma initOneGallery_ok (lib : SwiperLib) (dom : ZoomDom) (cs : Bool) (st : ZoomState)
    (hc : lib.ctorThrows = false) :
    initOneGallery lib dom true cs st
      = Except.ok
          ({ mounted := st.mounted
             live := insert (st.nextId + 1) (insert st.nextId st.live)
             colorClickListeners :=
               st.colorClickListeners + (if cs then dom.colorBtnCount else 0)
             loadListeners := st.loadListeners + 1
             nextId := st.nextId + 2 },
           some (st.nextId + 1, st.nextId)) := by
  rw [initOneGallery]
  simp only [Bool.not_true, swiperNew_ok lib _ hc]
  cases cs <;> rfl

-- The full invariant of the mounting loop under a non-throwing
-- constructor: it completes, registers one pair per present group, only
-- allocates fresh instance ids, never kills a live instance, accumulates
-- colour-button click listeners, and keeps ids below the counter and
-- registered pairs live.
lemma mountGroups_spec (lib : SwiperLib) (dom : ZoomDom) (hc : lib.ctorThrows = false) :
    ∀ (gs : List (Bool × Bool)) (st : ZoomState),
    ∃ st2, mountGroups lib dom gs st = Except.ok st2
      ∧ st.nextId ≤ st2.nextId
      ∧ st2.mounted.length = st.mounted.length + gs.countP (fun g => g.1)
      ∧ (∀ n ∈ st2.live, n ∈ st.live ∨ st.nextId ≤ n)
      ∧ (∀ n ∈ st.live, n ∈ st2.live)
      ∧ (∀ pr ∈ st2.mounted, pr ∈ st.mounted ∨ (st.nextId ≤ pr.1 ∧ st.nextId ≤ pr.2))
      ∧ st2.colorClickListeners = st.colorClickListeners
          + gs.countP (fun g => g.1 && g.2) * dom.colorBtnCount
      ∧ ((∀ n ∈ st.live, n < st.nextId) → ∀ n ∈ st2.live, n < st2.nextId)
      ∧ ((∀ pr ∈ st.mounted, pr.1 ∈ st.live ∧ pr.2 ∈ st.live) →
          ∀ pr ∈ st2.mounted, pr.1 ∈ st2.live ∧ pr.2 ∈ st2.live) := by
  intro gs
  induction gs with
  | nil =>
    intro st
    refine ⟨st, rfl, le_refl _, by simp, fun n hn => Or.inl hn, fun n hn => hn,
      fun pr hpr => Or.inl hpr, by simp, fun h => h, fun h => h⟩
  | cons g rest ih =>
    intro st
    by_cases hg : g.1 = true
    · -- the group is present: initOneGallery then push the pair
      obtain ⟨p, cs⟩ := g
      simp only at hg
      subst hg
      set stM : ZoomState :=
        { mounted := st.mounted ++ [(st.nextId + 1, st.nextId)]
          live := insert (st.nextId + 1) (insert st.nextId st.live)
          colorClickListeners :=
            st.colorClickListeners + (if cs then dom.colorBtnCount else 0)
          loadListeners := st.loadListeners + 1
          nextId := st.nextId + 2 } with hstM
      have hrun : mountGroups lib dom ((true, cs) :: rest) st
          = mountGroups lib dom rest stM := by
        rw [mountGroups]
        simp [initOneGallery_ok lib dom cs st hc]
      obtain ⟨st2, hok, hnext, hlen, hliveup, hlivedown, hmnt, hcc, hbound, hprlive⟩ := ih stM
      refine ⟨st2, by rw [hrun]; exact hok, ?_, ?_, ?_, ?_, ?_, ?_, ?_, ?_⟩
      · calc st.nextId ≤ st.nextId + 2 := by omega
          _ = stM.nextId := rfl
          _ ≤ st2.nextId := hnext
      · rw [hlen, hstM]
        simp [List.countP_cons]
        omega
      · intro n hn
        rcases hliveup n hn with hin | hge
        · rw [hstM] at hin
          simp only [Finset.mem_insert] at hin
          rcases hin with h1 | h2 | h3
          · exact Or.inr (by omega)
          · exact Or.inr (by omega)
          · exact Or.inl h3
        · exact Or.inr (by change st.nextId + 2 ≤ n at hge; omega)
      · intro n hn
        exact hlivedown n (by rw [hstM]; simp only [Finset.mem_insert]; exact Or.inr (Or.inr hn))
      · intro pr hpr
        rcases hmnt pr hpr with hin | hge
        · rw [hstM] at hin
          simp only [List.mem_append, List.mem_singleton] at hin
          rcases hin with h1 | h2
          · exact Or.inl h1
          · subst h2
            exact Or.inr (by constructor <;> omega)
        · exact Or.inr (by change st.nextId + 2 ≤ pr.1 ∧ st.nextId + 2 ≤ pr.2 at hge; omega)
      · rw [hcc, hstM]
        simp only [List.countP_cons]
        cases cs
        · simp
        · simp
          ring
      · intro hlt
        apply hbound
        intro n hn
        rw [hstM] at hn
        simp only [Finset.mem_insert] at hn
        change n < st.nextId + 2
        rcases hn with h1 | h2 | h3
        · omega
        · omega
        · have := hlt n h3
          omega
      · intro hpl
        apply hprlive
        intro pr hpr
        rw [hstM] at hpr
        simp only [List.mem_append, List.mem_singleton] at hpr
        rcases hpr with h1 | h2
        · obtain ⟨ha, hb⟩ := hpl pr h1
          constructor <;> · rw [hstM]; simp only [Finset.mem_insert]; tauto
        · subst h2
          constructor <;> · rw [hstM]; simp only [Finset.mem_insert]; tauto
    · -- the group is absent: skip it
      have hg2 : g.1 = false := by
        cases hq : g.1
        · rfl
        · exact absurd hq hg
      have hrun : mountGroups lib dom (g :: rest) st = mountGroups lib dom rest st := by
        rw [mountGroups, hg2]
        rfl
      obtain ⟨st2, hok, hnext, hlen, hliveup, hlivedown, hmnt, hcc, hbound, hprlive⟩ := ih st
      refine ⟨st2, by rw [hrun]; exact hok, hnext, ?_, hliveup, hlivedown, hmnt, ?_,
        hbound, hprlive⟩
      · rw [hlen]
        simp [List.countP_cons, hg2]
      · rw [hcc]
        simp [List.countP_cons, hg2]

-- `destroyPair` only touches the live set, and only shrinks it.
lemma destroyPair_fields (lib : SwiperLib) (st : ZoomState) (pr : Nat × Nat) :
    (destroyPair lib st pr).mounted = st.mounted
    ∧ (destroyPair lib st pr).colorClickListeners = st.colorClickListeners
    ∧ (destroyPair lib st pr).loadListeners = st.loadListeners
    ∧ (destroyPair lib st pr).nextId = st.nextId
    ∧ (destroyPair lib st pr).live ⊆ st.live := by
  by_cases h : lib.destroyThrows = true
  · simp [destroyPair, destroyCall, h]
  · simp only [Bool.not_eq_true] at h
    simp only [destroyPair, destroyCall, h, Bool.false_eq_true, if_false]
    refine ⟨trivial, trivial, trivial, trivial, ?_⟩
    exact (Finset.erase_subset _ _).trans (Finset.erase_subset _ _)

lemma foldl_destroyPair_fields (lib : SwiperLib) (l : List (Nat × Nat)) :
    ∀ st : ZoomState,
    (l.foldl (destroyPair lib) st).mounted = st.mounted
    ∧ (l.foldl (destroyPair lib) st).colorClickListeners = st.colorClickListeners
    ∧ (l.foldl (destroyPair lib) st).nextId = st.nextId
    ∧ (l.foldl (destroyPair lib) st).live ⊆ st.live := by
  induction l with
  | nil =>
    intro st
    exact ⟨rfl, rfl, rfl, fun n hn => hn⟩
  | cons pr rest ih =>
    intro st
    obtain ⟨hm, hc, hn, hl⟩ := ih (destroyPair lib st pr)
    obtain ⟨hm1, hc1, _, hn1, hl1⟩ := destroyPair_fields lib st pr
    rw [List.foldl_cons]
    exact ⟨hm.trans hm1, hc.trans hc1, hn.trans hn1, fun n hn2 => hl1 (hl hn2)⟩

-- A successful `destroy` removes both instances of the pair.
lemma destroyPair_kills (lib : SwiperLib) (st : ZoomState) (pr : Nat × Nat)
    (hd : lib.destroyThrows = false) :
    pr.1 ∉ (destroyPair lib st pr).live ∧ pr.2 ∉ (destroyPair lib st pr).live := by
  simp only [destroyPair, destroyCall, hd, Bool.false_eq_true, if_false]
  constructor
  · intro h
    simp only [Finset.mem_erase] at h
    exact h.2.1 rfl
  · intro h
    simp only [Finset.mem_erase] at h
    exact h.1 rfl

lemma foldl_destroyPair_kills (lib : SwiperLib) (hd : lib.destroyThrows = false)
    (l : List (Nat × Nat)) :
    ∀ (st : ZoomState) (pr : Nat × Nat), pr ∈ l →
      pr.1 ∉ (l.foldl (destroyPair lib) st).live
      ∧ pr.2 ∉ (l.foldl (destroyPair lib) st).live := by
  induction l with
  | nil =>
    intro st pr habs
    exact absurd habs (List.not_mem_nil pr)
  | cons q rest ih =>
    intro st pr hmem
    rw [List.foldl_cons]
    rcases List.mem_cons.mp hmem with heq | htail
    · subst heq
      obtain ⟨h1, h2⟩ := destroyPair_kills lib st pr hd
      obtain ⟨_, _, _, hsub⟩ := foldl_destroyPair_fields lib rest (destroyPair lib st pr)
      exact ⟨fun hin => h1 (hsub hin), fun hin => h2 (hsub hin)⟩
    · exact ih (destroyPair lib st q) pr htail

-- The teardown always empties the registry, keeps the other fields, and
-- with a non-throwing destroy leaves no registered instance alive.
lemma destroyMounted_spec (lib : SwiperLib) (st : ZoomState) :
    (destroyMounted lib st).mounted = []
    ∧ (destroyMounted lib st).colorClickListeners = st.colorClickListeners
    ∧ (destroyMounted lib st).nextId = st.nextId
    ∧ (destroyMounted lib st).live ⊆ st.live
    ∧ (lib.destroyThrows = false → ∀ pr ∈ st.mounted,
        pr.1 ∉ (destroyMounted lib st).live ∧ pr.2 ∉ (destroyMounted lib st).live) := by
  obtain ⟨hm, hc, hn, hl⟩ := foldl_destroyPair_fields lib st.mounted st
  refine ⟨rfl, hc, hn, hl, ?_⟩
  intro hd pr hpr
  exact foldl_destroyPair_kills lib hd st.mounted st pr hpr

-- Only the primary group carries colour synchronisation.
lemma countP_sync (dom : ZoomDom) :
    (galleryGroups dom).countP (fun g => g.1 && g.2) * dom.colorBtnCount
      = (if dom.primaryPresent then dom.colorBtnCount else 0) := by
  cases h : dom.primaryPresent <;> simp [galleryGroups, List.countP_cons, h]

/-- Claim C7 (corrected; amendment: exceptions thrown by `update`,
`slideTo` and `destroy` are swallowed, so mount and teardown complete for
any such library behaviour — but an exception from a `new Swiper`
constructor call is NOT caught and propagates out of the mount). This is
the guarded direction: with a non-throwing constructor the whole
mount-after-teardown completes, whatever else throws. -/
theorem zoom_ctor_guard (lib : SwiperLib) (dom : ZoomDom) (st : ZoomState)
    (hc : lib.ctorThrows = false) :
    ∃ st2, mountAllGalleries lib dom st = Except.ok st2 := by
  obtain ⟨st2, hok, -⟩ :=
    mountGroups_spec lib dom hc (galleryGroups dom) (destroyMounted lib st)
  exact ⟨st2, hok⟩

/-- Claim C7, counterexample to the claim as stated: a throwing
constructor makes the whole mount throw — the exception reaches the
caller of `mountAllGalleries` uncaught. -/
theorem zoom_exceptions_cex :
    mountAllGalleries ctorThrowLib primaryDom freshState = Except.error () := rfl

/-- Witness for C7 (amended): with every library call except the
constructor throwing, the mount still completes. -/
theorem zoom_ctor_guard_witness :
    flakyLib.ctorThrows = false
    ∧ ∃ st2, mountAllGalleries flakyLib primaryDom freshState = Except.ok st2 :=
  ⟨rfl, zoom_ctor_guard flakyLib primaryDom freshState rfl⟩

/-- Claim C4 (corrected; amendment: two successive mounts do leave exactly
one registered pair per present selector group, with every pair of the
first mount destroyed and the registry rebuilt from freshly constructed
instances — but the colour-swatch click listeners are NOT removed by the
teardown and accumulate one copy per colour button on every remount). -/
theorem zoom_remount_amended (lib : SwiperLib) (dom : ZoomDom)
    (hc : lib.ctorThrows = false) (hd : lib.destroyThrows = false)
    (st1 st2 : ZoomState)
    (h1 : mountAllGalleries lib dom freshState = Except.ok st1)
    (h2 : mountAllGalleries lib dom st1 = Except.ok st2) :
    st1.mounted.length = groupCount dom
    ∧ st2.mounted.length = groupCount dom
    ∧ (∀ pr ∈ st1.mounted, pr.1 ∉ st2.live ∧ pr.2 ∉ st2.live)
    ∧ (∀ pr ∈ st2.mounted, st1.nextId ≤ pr.1 ∧ st1.nextId ≤ pr.2)
    ∧ (∀ pr ∈ st1.mounted, pr.1 < st1.nextId ∧ pr.2 < st1.nextId)
    ∧ st2.colorClickListeners = st1.colorClickListeners
        + (if dom.primaryPresent then dom.colorBtnCount else 0) := by
  -- the first mount, from the fresh state
  have hfresh : destroyMounted lib freshState = freshState := rfl
  obtain ⟨st1x, hok1, _, hlen1, _, _, _, _, hbound1, hprlive1⟩ :=
    mountGroups_spec lib dom hc (galleryGroups dom) (destroyMounted lib freshState)
  rw [mountAllGalleries, hok1] at h1
  injection h1 with h1
  subst h1
  rw [hfresh] at hlen1 hbound1 hprlive1
  have hlive1 : ∀ n ∈ st1x.live, n < st1x.nextId := by
    apply hbound1
    intro n hn
    exact absurd hn (Finset.not_mem_empty n)
  have hpairs1 : ∀ pr ∈ st1x.mounted, pr.1 ∈ st1x.live ∧ pr.2 ∈ st1x.live := by
    apply hprlive1
    intro pr hpr
    exact absurd hpr (List.not_mem_nil pr)
  have hpairs1lt : ∀ pr ∈ st1x.mounted, pr.1 < st1x.nextId ∧ pr.2 < st1x.nextId := by
    intro pr hpr
    obtain ⟨ha, hb⟩ := hpairs1 pr hpr
    exact ⟨hlive1 _ ha, hlive1 _ hb⟩
  -- the teardown at the head of the second mount
  obtain ⟨hdm, hdcc, hdnext, hdsub, hdkill⟩ := destroyMounted_spec lib st1x
  -- the second mount
  obtain ⟨st2x, hok2, _, hlen2, hliveup2, _, hmnt2, hcc2, _, _⟩ :=
    mountGroups_spec lib dom hc (galleryGroups dom) (destroyMounted lib st1x)
  rw [mountAllGalleries, hok2] at h2
  injection h2 with h2
  subst h2
  refine ⟨?_, ?_, ?_, ?_, hpairs1lt, ?_⟩
  · rw [hlen1]
    simp [freshState, groupCount]
  · rw [hlen2, hdm]
    simp [groupCount]
  · intro pr hpr
    obtain ⟨hk1, hk2⟩ := hdkill hd pr hpr
    obtain ⟨hlt1, hlt2⟩ := hpairs1lt pr hpr
    constructor
    · intro hin
      rcases hliveup2 pr.1 hin with hold | hge
      · exact hk1 hold
      · rw [hdnext] at hge
        omega
    · intro hin
      rcases hliveup2 pr.2 hin with hold | hge
      · exact hk2 hold
      · rw [hdnext] at hge
        omega
  · intro pr hpr
    rcases hmnt2 pr hpr with hold | hge
    · rw [hdm] at hold
      exact absurd hold (List.not_mem_nil pr)
    · rw [hdnext] at hge
      exact hge
  · rw [hcc2, hdcc, countP_sync]

/-- Claim C4, counterexample to the claim as stated: mounting twice over a
document with one colour button leaves one registered pair but two click
listeners on that button — listeners do accumulate. -/
theorem zoom_remount_cex :
    (mountTwice goodLib primaryDom).map
        (fun st => (st.mounted.length, st.colorClickListeners)) = Except.ok (1, 2)
    ∧ primaryDom.colorBtnCount = 1 :=
  ⟨rfl, rfl⟩

/-- Witness for C4 (amended) at the concrete double mount. -/
theorem zoom_remount_witness :
    goodLib.ctorThrows = false
    ∧ goodLib.destroyThrows = false
    ∧ mountAllGalleries goodLib primaryDom freshState = Except.ok zSt1
    ∧ mountAllGalleries goodLib primaryDom zSt1 = Except.ok zSt2
    ∧ (zSt1.mounted.length = groupCount primaryDom
      ∧ zSt2.mounted.length = groupCount primaryDom
      ∧ (∀ pr ∈ zSt1.mounted, pr.1 ∉ zSt2.live ∧ pr.2 ∉ zSt2.live)
      ∧ (∀ pr ∈ zSt2.mounted, zSt1.nextId ≤ pr.1 ∧ zSt1.nextId ≤ pr.2)
      ∧ (∀ pr ∈ zSt1.mounted, pr.1 < zSt1.nextId ∧ pr.2 < zSt1.nextId)
      ∧ zSt2.colorClickListeners = zSt1.colorClickListeners
          + (if primaryDom.primaryPresent then primaryDom.colorBtnCount else 0)) :=
  ⟨rfl, rfl, rfl, rfl,
   zoom_remount_amended goodLib primaryDom rfl rfl zSt1 zSt2 rfl rfl⟩

end Zoom
